import Mathlib

/-!
# Verification of the bezier-easing library (src/src/index.js)

Shallow embedding of the cubic-Bézier easing factory over `ℚ`:
the JavaScript numbers are modelled as exact rationals, `Math.abs`
as an explicit conditional (`mabs`), the thrown `Error` as
`Except.error`, and each bounded loop as structural recursion on the
number of remaining iterations, mirroring the source loop counters.
-/

namespace BezierEasingJs

/-- `NEWTON_ITERATIONS = 4` (index.js line 9). -/
def NEWTON_ITERATIONS : Nat := 4

/-- `NEWTON_MIN_SLOPE = 0.001` (index.js line 10). -/
def NEWTON_MIN_SLOPE : ℚ := 1/1000

/-- `SUBDIVISION_PRECISION = 0.0000001` (index.js line 11). -/
def SUBDIVISION_PRECISION : ℚ := 1/10000000

/-- `SUBDIVISION_MAX_ITERATIONS = 10` (index.js line 12). -/
def SUBDIVISION_MAX_ITERATIONS : Nat := 10

/-- `kSplineTableSize = 11` (index.js line 14). -/
def kSplineTableSize : Nat := 11

/-- `kSampleStepSize = 1.0 / (kSplineTableSize - 1.0)` (index.js line 15). -/
def kSampleStepSize : ℚ := 1 / ((kSplineTableSize : ℚ) - 1)

/-- `A(aA1, aA2) = 1.0 - 3.0 * aA2 + 3.0 * aA1` (index.js line 19). -/
def A (aA1 aA2 : ℚ) : ℚ := 1 - 3 * aA2 + 3 * aA1

/-- `B(aA1, aA2) = 3.0 * aA2 - 6.0 * aA1` (index.js line 20). -/
def B (aA1 aA2 : ℚ) : ℚ := 3 * aA2 - 6 * aA1

/-- `C(aA1) = 3.0 * aA1` (index.js line 21). -/
def C (aA1 : ℚ) : ℚ := 3 * aA1

/-- `calcBezier(aT, aA1, aA2) = ((A*aT + B)*aT + C)*aT` (index.js line 25):
x(t) given (t, x1, x2), or y(t) given (t, y1, y2). -/
def calcBezier (aT aA1 aA2 : ℚ) : ℚ :=
  ((A aA1 aA2 * aT + B aA1 aA2) * aT + C aA1) * aT

/-- `getSlope(aT, aA1, aA2) = 3.0*A*aT*aT + 2.0*B*aT + C` (index.js line 29). -/
def getSlope (aT aA1 aA2 : ℚ) : ℚ :=
  3 * A aA1 aA2 * aT * aT + 2 * B aA1 aA2 * aT + C aA1

/-- JavaScript `Math.abs` on our rational model. -/
def mabs (q : ℚ) : ℚ := if q < 0 then -q else q

/-- The do/while body of `binarySubdivide` (index.js lines 35-45), with the
remaining number of permitted extra iterations as the recursion fuel: the
source's `++i < SUBDIVISION_MAX_ITERATIONS` allows 9 re-entries after the
first pass, so `binarySubdivide` enters with fuel 9.  At fuel 0 the loop
exits regardless of the precision test, returning the current midpoint. -/
def binarySubdivideRun (aX mX1 mX2 : ℚ) : Nat → ℚ → ℚ → ℚ
  | 0, aA, aB => aA + (aB - aA) / 2
  | fuel+1, aA, aB =>
    let currentT := aA + (aB - aA) / 2
    let currentX := calcBezier currentT mX1 mX2 - aX
    if SUBDIVISION_PRECISION < mabs currentX then
      binarySubdivideRun aX mX1 mX2 fuel
        (if currentX > 0 then aA else currentT)
        (if currentX > 0 then currentT else aB)
    else currentT

/-- `binarySubdivide(aX, aA, aB, mX1, mX2)` (index.js lines 32-47). -/
def binarySubdivide (aX aA aB mX1 mX2 : ℚ) : ℚ :=
  binarySubdivideRun aX mX1 mX2 (SUBDIVISION_MAX_ITERATIONS - 1) aA aB

/-- The for-loop of `newtonRaphsonIterate` (index.js lines 51-58), recursion
on the number of remaining iterations. -/
def newtonRaphsonGo (aX mX1 mX2 : ℚ) : Nat → ℚ → ℚ
  | 0, aGuessT => aGuessT
  | n+1, aGuessT =>
    let currentSlope := getSlope aGuessT mX1 mX2
    if currentSlope = 0 then aGuessT
    else
      newtonRaphsonGo aX mX1 mX2 n
        (aGuessT - (calcBezier aGuessT mX1 mX2 - aX) / currentSlope)

/-- `newtonRaphsonIterate(aX, aGuessT, mX1, mX2)` (index.js lines 50-60). -/
def newtonRaphsonIterate (aX aGuessT mX1 mX2 : ℚ) : ℚ :=
  newtonRaphsonGo aX mX1 mX2 NEWTON_ITERATIONS aGuessT

/-- Number of body executions of the `newtonRaphsonIterate` for-loop that
actually perform the update `aGuessT -= currentX / currentSlope`, mirroring
`newtonRaphsonGo`. -/
def newtonStepCount (aX mX1 mX2 : ℚ) : Nat → ℚ → Nat
  | 0, _ => 0
  | n+1, aGuessT =>
    let currentSlope := getSlope aGuessT mX1 mX2
    if currentSlope = 0 then 0
    else
      newtonStepCount aX mX1 mX2 n
        (aGuessT - (calcBezier aGuessT mX1 mX2 - aX) / currentSlope) + 1

/-- Number of body executions of the `binarySubdivide` do/while loop,
mirroring `binarySubdivideRun` (the body always runs at least once). -/
def binarySubdivideCount (aX mX1 mX2 : ℚ) : Nat → ℚ → ℚ → Nat
  | 0, _, _ => 1
  | fuel+1, aA, aB =>
    let currentT := aA + (aB - aA) / 2
    let currentX := calcBezier currentT mX1 mX2 - aX
    if SUBDIVISION_PRECISION < mabs currentX then
      binarySubdivideCount aX mX1 mX2 fuel
        (if currentX > 0 then aA else currentT)
        (if currentX > 0 then currentT else aB) + 1
    else 1

/-- The sample values read by the solver: `sampleValues[i] =
calcBezier(i * kSampleStepSize, mX1, mX2)` (index.js line 78). -/
def sampleValuesFn (mX1 mX2 : ℚ) (i : Nat) : ℚ :=
  calcBezier ((i : ℚ) * kSampleStepSize) mX1 mX2

/-- The interval-search loop of `getTForX` (index.js lines 89-92):
`for (; currentSample !== lastSample && sampleValues[currentSample] <= aX;
++currentSample) intervalStart += kSampleStepSize`.  The fuel is
`lastSample - currentSample`, so the `currentSample !== lastSample` guard is
exactly `fuel ≠ 0`; the result is the final
`(currentSample, intervalStart)` pair. -/
def searchLoop (sv : Nat → ℚ) (aX : ℚ) : Nat → Nat → ℚ → Nat × ℚ
  | 0, currentSample, intervalStart => (currentSample, intervalStart)
  | fuel+1, currentSample, intervalStart =>
    if sv currentSample ≤ aX then
      searchLoop sv aX fuel (currentSample + 1) (intervalStart + kSampleStepSize)
    else (currentSample, intervalStart)

/-- The interval search as performed by `getTForX`: the loop starts at
`currentSample = 1`, `intervalStart = 0.0`, with
`lastSample = kSplineTableSize - 1`, hence fuel
`lastSample - currentSample = kSplineTableSize - 1 - 1 = 9`. -/
def searchResult (mX1 mX2 aX : ℚ) : Nat × ℚ :=
  searchLoop (sampleValuesFn mX1 mX2) aX (kSplineTableSize - 1 - 1) 1 0

/-- The interpolated initial guess of `getTForX` (index.js lines 95-104):
after `--currentSample`,
`dist = (aX - sampleValues[currentSample]) /
(sampleValues[currentSample+1] - sampleValues[currentSample])` and
`guessForT = intervalStart + dist * kSampleStepSize`. -/
def guessForT (mX1 mX2 aX : ℚ) : ℚ :=
  let r := searchResult mX1 mX2 aX
  let currentSample := r.1 - 1
  let intervalStart := r.2
  let dist := (aX - sampleValuesFn mX1 mX2 currentSample) /
      (sampleValuesFn mX1 mX2 (currentSample + 1) - sampleValuesFn mX1 mX2 currentSample)
  intervalStart + dist * kSampleStepSize

/-- `getTForX(aX)` (index.js lines 83-116), for the closed-over control
x-coordinates `mX1`, `mX2`: branch on the slope at the interpolated guess. -/
def getTForX (mX1 mX2 aX : ℚ) : ℚ :=
  let intervalStart := (searchResult mX1 mX2 aX).2
  let initialSlope := getSlope (guessForT mX1 mX2 aX) mX1 mX2
  if NEWTON_MIN_SLOPE ≤ initialSlope then
    newtonRaphsonIterate aX (guessForT mX1 mX2 aX) mX1 mX2
  else if initialSlope = 0 then
    guessForT mX1 mX2 aX
  else
    binarySubdivide aX intervalStart (intervalStart + kSampleStepSize) mX1 mX2

/-- The returned closure `BezierEasing(x)` (index.js lines 118-136). -/
def BezierEasing (mX1 mY1 mX2 mY2 x : ℚ) : ℚ :=
  if mX1 = mY1 ∧ mX2 = mY2 then x
  else if x = 0 then 0
  else if x = 1 then 1
  else calcBezier (getTForX mX1 mX2 x) mY1 mY2

/-- The sample table built at construction (index.js lines 69-80): the
`Float32Array`/`Array` of `kSplineTableSize` slots is filled only when
`mX1 !== mY1 || mX2 !== mY2`; otherwise it is left unset, modelled `none`. -/
def sampleValuesTable (mX1 mY1 mX2 mY2 : ℚ) : Option (List ℚ) :=
  if mX1 ≠ mY1 ∨ mX2 ≠ mY2 then
    some ((List.range kSplineTableSize).map
      (fun i : ℕ => calcBezier ((i : ℚ) * kSampleStepSize) mX1 mX2))
  else none

/-- The exported factory `bezier(mX1, mY1, mX2, mY2)` (index.js lines 62-137):
the thrown `Error` is modelled as `Except.error` carrying the message. -/
def bezier (mX1 mY1 mX2 mY2 : ℚ) : Except String (ℚ → ℚ) :=
  if 0 ≤ mX1 ∧ mX1 ≤ 1 ∧ 0 ≤ mX2 ∧ mX2 ≤ 1 then
    Except.ok (BezierEasing mX1 mY1 mX2 mY2)
  else
    Except.error "bezier x values must be in [0, 1] range"

/-! ## Helper lemmas -/

/-- The interval-search loop can only move `currentSample` forward, and at
most `fuel` many steps. -/
theorem searchLoop_fst_bounds (sv : Nat → ℚ) (aX : ℚ) :
    ∀ (fuel currentSample : Nat) (intervalStart : ℚ),
      currentSample ≤ (searchLoop sv aX fuel currentSample intervalStart).1 ∧
        (searchLoop sv aX fuel currentSample intervalStart).1 ≤ currentSample + fuel := by
  intro fuel
  induction fuel with
  | zero => intro cs is; simp [searchLoop]
  | succ n ih =>
    intro cs is
    rw [searchLoop]
    split_ifs with h
    · have := ih (cs + 1) (is + kSampleStepSize)
      omega
    · simp

/-- The accumulated `intervalStart` tracks the number of loop iterations,
each contributing one `kSampleStepSize`. -/
theorem searchLoop_snd_eq (sv : Nat → ℚ) (aX : ℚ) :
    ∀ (fuel currentSample : Nat) (intervalStart : ℚ),
      (searchLoop sv aX fuel currentSample intervalStart).2 =
        intervalStart +
          (((searchLoop sv aX fuel currentSample intervalStart).1 : ℚ) - currentSample) *
            kSampleStepSize := by
  intro fuel
  induction fuel with
  | zero => intro cs is; simp [searchLoop]
  | succ n ih =>
    intro cs is
    rw [searchLoop]
    split_ifs with h
    · rw [ih (cs + 1) (is + kSampleStepSize)]
      push_cast
      ring
    · simp

/-- For the curve with linear x-polynomial, `x1 = 1/3`, `x2 = 2/3`, the
x-coordinate cubic collapses to `x(t) = t`. -/
theorem calcBezier_linear (t : ℚ) : calcBezier t (1/3) (2/3) = t := by
  unfold calcBezier A B C
  ring

/-- For `x1 = 1/3`, `x2 = 2/3` the slope is constantly `1`. -/
theorem getSlope_linear (t : ℚ) : getSlope t (1/3) (2/3) = 1 := by
  unfold getSlope A B C
  ring

/-- Newton-Raphson on the linear x-curve fixes any guess with zero residual. -/
theorem newtonRaphsonGo_linear_fixed (aX : ℚ) :
    ∀ n : Nat, newtonRaphsonGo aX (1/3) (2/3) n aX = aX := by
  intro n
  induction n with
  | zero => rfl
  | succ m ih =>
    rw [newtonRaphsonGo]
    simp only [getSlope_linear, calcBezier_linear, one_ne_zero, if_false, sub_self,
      zero_div, sub_zero]
    exact ih

/-- On the linear x-curve the interpolated seed of `getTForX` is exact:
it equals the target `aX` itself, whatever interval the search lands in. -/
theorem guessForT_linear (aX : ℚ) : guessForT (1/3) (2/3) aX = aX := by
  have hb := searchLoop_fst_bounds (sampleValuesFn (1/3) (2/3)) aX
    (kSplineTableSize - 1 - 1) 1 0
  have hs := searchLoop_snd_eq (sampleValuesFn (1/3) (2/3)) aX
    (kSplineTableSize - 1 - 1) 1 0
  unfold guessForT searchResult
  rcases hres : searchLoop (sampleValuesFn (1/3) (2/3)) aX (kSplineTableSize - 1 - 1) 1 0
    with ⟨cs, is⟩
  rw [hres] at hb hs
  simp only []
  have h1 : 1 ≤ cs := hb.1
  have hcast : ((cs - 1 : Nat) : ℚ) = (cs : ℚ) - 1 := by
    push_cast [h1]
    ring
  have hsucc : cs - 1 + 1 = cs := by omega
  rw [hsucc]
  simp only at hs
  rw [hs]
  simp only [sampleValuesFn, calcBezier_linear, hcast]
  have hstep : kSampleStepSize = 1/10 := by
    norm_num [kSampleStepSize, kSplineTableSize]
  rw [hstep]
  push_cast
  field_simp

/-- On the linear x-curve the whole solver is exact: `getTForX` returns the
input itself (the Newton branch is taken with zero residual). -/
theorem getTForX_linear (aX : ℚ) : getTForX (1/3) (2/3) aX = aX := by
  unfold getTForX
  simp only []
  rw [guessForT_linear aX]
  rw [if_pos (by rw [getSlope_linear]; norm_num [NEWTON_MIN_SLOPE])]
  unfold newtonRaphsonIterate
  exact newtonRaphsonGo_linear_fixed aX NEWTON_ITERATIONS

/-- Interval search for the plateau curve `(x1, x2) = (1, 0)` at `x = 1/2`:
the loop passes the sample `x(0.5) = 0.5` and stops at index 6. -/
theorem searchResult_plateau_half : searchResult 1 0 (1/2) = (6, 1/2) := by
  norm_num [searchResult, searchLoop, sampleValuesFn, calcBezier, A, B, C,
    kSplineTableSize, kSampleStepSize, Prod.ext_iff]

/-- The interpolated guess for the plateau curve at `x = 1/2` is exactly the
plateau parameter `1/2`. -/
theorem guessForT_plateau_half : guessForT 1 0 (1/2) = 1/2 := by
  unfold guessForT
  rw [searchResult_plateau_half]
  norm_num [sampleValuesFn, calcBezier, A, B, C, kSampleStepSize, kSplineTableSize]

/-- The solver at the plateau: the interpolated guess is `0.5`, where the
slope vanishes exactly, so the zero-slope branch returns the guess. -/
theorem getTForX_plateau_half : getTForX 1 0 (1/2) = 1/2 := by
  unfold getTForX
  simp only []
  rw [guessForT_plateau_half]
  rw [if_neg (by norm_num [getSlope, A, B, C, NEWTON_MIN_SLOPE]),
    if_pos (by norm_num [getSlope, A, B, C])]

/-- Interval search for the curve `(x1, x2) = (0, 1)` at `x = 1/2`. -/
theorem searchResult_ease_half : searchResult 0 1 (1/2) = (6, 1/2) := by
  norm_num [searchResult, searchLoop, sampleValuesFn, calcBezier, A, B, C,
    kSplineTableSize, kSampleStepSize, Prod.ext_iff]

/-- The interpolated guess for `(x1, x2) = (0, 1)` at `x = 1/2` is `1/2`. -/
theorem guessForT_ease_half : guessForT 0 1 (1/2) = 1/2 := by
  unfold guessForT
  rw [searchResult_ease_half]
  norm_num [sampleValuesFn, calcBezier, A, B, C, kSampleStepSize, kSplineTableSize]

/-- The solver for `(x1, x2) = (0, 1)` at `x = 1/2`: the guess `0.5` is exact
(zero residual), so the four Newton iterations leave it unchanged. -/
theorem getTForX_ease_half : getTForX 0 1 (1/2) = 1/2 := by
  unfold getTForX
  simp only []
  rw [guessForT_ease_half]
  rw [if_pos (by norm_num [getSlope, A, B, C, NEWTON_MIN_SLOPE])]
  norm_num [newtonRaphsonIterate, NEWTON_ITERATIONS, newtonRaphsonGo, calcBezier,
    getSlope, A, B, C]

/-- Interval search for the plateau curve at `x = 4997/10000`. -/
theorem searchResult_plateau_c4 : searchResult 1 0 (4997/10000) = (5, 2/5) := by
  norm_num [searchResult, searchLoop, sampleValuesFn, calcBezier, A, B, C,
    kSplineTableSize, kSampleStepSize, Prod.ext_iff]

/-- The interpolated guess for the plateau curve at `x = 4997/10000`. -/
theorem guessForT_plateau_c4 : guessForT 1 0 (4997/10000) = 197/400 := by
  unfold guessForT
  rw [searchResult_plateau_c4]
  norm_num [sampleValuesFn, calcBezier, A, B, C, kSampleStepSize, kSplineTableSize]

/-- The solver at `x = 4997/10000` on the plateau curve: the guess `197/400`
has slope `27/40000`, strictly between `0` and `NEWTON_MIN_SLOPE`, so the
bisection branch runs on `[2/5, 1/2]` and exhausts its 10 iterations. -/
theorem getTForX_plateau_c4 : getTForX 1 0 (4997/10000) = 4689/10240 := by
  unfold getTForX
  simp only []
  rw [searchResult_plateau_c4, guessForT_plateau_c4]
  rw [if_neg (by norm_num [getSlope, A, B, C, NEWTON_MIN_SLOPE]),
    if_neg (by norm_num [getSlope, A, B, C])]
  norm_num [binarySubdivide, binarySubdivideRun, SUBDIVISION_MAX_ITERATIONS,
    SUBDIVISION_PRECISION, calcBezier, A, B, C, mabs, kSampleStepSize, kSplineTableSize]

/-! ## The claims -/

/-- C1: for every valid control tuple `(x1, y1, x2, y2)` with `x1, x2 ∈ [0,1]`,
the returned easing function takes the value exactly `0` at `x = 0` and
exactly `1` at `x = 1` (the closure's explicit boundary branches, and the
identity branch, both return the endpoints exactly). -/
theorem c1_endpoints_exact (mX1 mY1 mX2 mY2 : ℚ)
    (hx1l : 0 ≤ mX1) (hx1r : mX1 ≤ 1) (hx2l : 0 ≤ mX2) (hx2r : mX2 ≤ 1) :
    BezierEasing mX1 mY1 mX2 mY2 0 = 0 ∧ BezierEasing mX1 mY1 mX2 mY2 1 = 1 := by
  unfold BezierEasing
  constructor <;> split_ifs <;> simp_all

theorem c1_endpoints_exact_witness :
    (0 : ℚ) ≤ 1/2 ∧ (1/2 : ℚ) ≤ 1 ∧ (0 : ℚ) ≤ 1/3 ∧ (1/3 : ℚ) ≤ 1 ∧
      BezierEasing (1/2) 5 (1/3) (-2) 0 = 0 ∧ BezierEasing (1/2) 5 (1/3) (-2) 1 = 1 :=
  ⟨by norm_num, by norm_num, by norm_num, by norm_num,
    (c1_endpoints_exact (1/2) 5 (1/3) (-2)
      (by norm_num) (by norm_num) (by norm_num) (by norm_num)).1,
    (c1_endpoints_exact (1/2) 5 (1/3) (-2)
      (by norm_num) (by norm_num) (by norm_num) (by norm_num)).2⟩

/-- C2: when `x1 == y1` and `x2 == y2` (with `x1, x2 ∈ [0,1]`), the returned
closure takes its first branch and returns the input unchanged, for every
rational input, including inputs outside `[0,1]`; the solver is never
consulted. -/
theorem c2_identity_law (mX1 mY1 mX2 mY2 x : ℚ)
    (hx1l : 0 ≤ mX1) (hx1r : mX1 ≤ 1) (hx2l : 0 ≤ mX2) (hx2r : mX2 ≤ 1)
    (h1 : mX1 = mY1) (h2 : mX2 = mY2) :
    BezierEasing mX1 mY1 mX2 mY2 x = x := by
  unfold BezierEasing
  rw [if_pos ⟨h1, h2⟩]

theorem c2_identity_law_witness :
    (0 : ℚ) ≤ 1/3 ∧ (1/3 : ℚ) ≤ 1 ∧ (0 : ℚ) ≤ 2/3 ∧ (2/3 : ℚ) ≤ 1 ∧
      (1/3 : ℚ) = 1/3 ∧ (2/3 : ℚ) = 2/3 ∧
      BezierEasing (1/3) (1/3) (2/3) (2/3) (7/2) = 7/2 :=
  ⟨by norm_num, by norm_num, by norm_num, by norm_num, rfl, rfl,
    c2_identity_law (1/3) (1/3) (2/3) (2/3) (7/2)
      (by norm_num) (by norm_num) (by norm_num) (by norm_num) rfl rfl⟩

/-- C3: the factory succeeds exactly when `0 ≤ x1 ≤ 1` and `0 ≤ x2 ≤ 1`
(`y1`, `y2` are unconstrained: they do not occur in the check), and it
produces the invalid-argument error exactly when `x1` or `x2` lies outside
`[0,1]`.  The check happens before any table is built, and the success value
is a total function on `ℚ`, so calls to it never fail. -/
theorem c3_invalid_argument_iff (mX1 mY1 mX2 mY2 : ℚ) :
    ((∃ f, bezier mX1 mY1 mX2 mY2 = Except.ok f) ↔
      0 ≤ mX1 ∧ mX1 ≤ 1 ∧ 0 ≤ mX2 ∧ mX2 ≤ 1) ∧
    ((∃ e, bezier mX1 mY1 mX2 mY2 = Except.error e) ↔
      (mX1 < 0 ∨ 1 < mX1 ∨ mX2 < 0 ∨ 1 < mX2)) := by
  unfold bezier
  constructor
  · split_ifs with h <;> simp only [h, iff_true] <;> simp
  · split_ifs with h
    · simp only [reduceCtorEq, exists_false, false_iff]
      push_neg
      exact ⟨h.1, h.2.1, h.2.2.1, h.2.2.2⟩
    · simp only [Except.error.injEq, exists_eq', true_iff]
      simp only [not_and_or, not_le] at h
      tauto

/-- C10: for every input reaching the solver, the interval search ends with
`1 ≤ currentSample ≤ 10` before the `--currentSample`, so the decremented
index satisfies `currentSample ≤ 9` and both reads
`sampleValues[currentSample]` and `sampleValues[currentSample + 1]` are
inside the table of `kSplineTableSize = 11` samples. -/
theorem c10_search_index_in_bounds (mX1 mX2 aX : ℚ) :
    1 ≤ (searchResult mX1 mX2 aX).1 ∧
    (searchResult mX1 mX2 aX).1 - 1 ≤ 9 ∧
    (searchResult mX1 mX2 aX).1 - 1 + 1 < kSplineTableSize := by
  have h := searchLoop_fst_bounds (sampleValuesFn mX1 mX2) aX (kSplineTableSize - 1 - 1) 1 0
  unfold searchResult
  unfold kSplineTableSize at h ⊢
  omega

theorem newtonStepCount_le (aX mX1 mX2 : ℚ) :
    ∀ (n : Nat) (aGuessT : ℚ), newtonStepCount aX mX1 mX2 n aGuessT ≤ n := by
  intro n
  induction n with
  | zero => intro t; simp [newtonStepCount]
  | succ m ih =>
    intro t
    rw [newtonStepCount]
    split_ifs with h
    · omega
    · have := ih (t - (calcBezier t mX1 mX2 - aX) / getSlope t mX1 mX2)
      omega

theorem binarySubdivideCount_le (aX mX1 mX2 : ℚ) :
    ∀ (fuel : Nat) (aA aB : ℚ), binarySubdivideCount aX mX1 mX2 fuel aA aB ≤ fuel + 1 := by
  intro fuel
  induction fuel with
  | zero => intro aA aB; simp [binarySubdivideCount]
  | succ m ih =>
    intro aA aB
    rw [binarySubdivideCount]
    split_ifs with h hx
    · have := ih aA (aA + (aB - aA) / 2)
      omega
    · have := ih (aA + (aB - aA) / 2) aB
      omega
    · omega

/-- C6: whenever `x1 ≠ y1` or `x2 ≠ y2`, the factory fills a table of exactly
11 samples with `sample[i] = calcBezier(i/10, x1, x2)` (constant step `1/10`);
these are exactly the values the solver reads.  When the curve is the identity
line the table is left unset (`none`). -/
theorem c6_sample_table (mX1 mY1 mX2 mY2 : ℚ) :
    (mX1 ≠ mY1 ∨ mX2 ≠ mY2 →
      ∃ l, sampleValuesTable mX1 mY1 mX2 mY2 = some l ∧
        l.length = 11 ∧
        (∀ i : Nat, i < 11 → l.getD i 0 = calcBezier ((i : ℚ) / 10) mX1 mX2) ∧
        (∀ i : Nat, i < 11 → l.getD i 0 = sampleValuesFn mX1 mX2 i)) ∧
    (mX1 = mY1 ∧ mX2 = mY2 → sampleValuesTable mX1 mY1 mX2 mY2 = none) := by
  constructor
  · intro h
    unfold sampleValuesTable
    rw [if_pos h]
    refine ⟨_, rfl, ?_, ?_, ?_⟩
    · rw [List.length_map, List.length_range]
      rfl
    · intro i hi
      have hlen : i < ((List.range kSplineTableSize).map
          (fun j : ℕ => calcBezier ((j : ℚ) * kSampleStepSize) mX1 mX2)).length := by
        simpa [kSplineTableSize] using hi
      rw [List.getD_eq_getElem _ _ hlen, List.getElem_map, List.getElem_range]
      rw [show kSampleStepSize = 1/10 by norm_num [kSampleStepSize, kSplineTableSize],
        mul_one_div]
    · intro i hi
      have hlen : i < ((List.range kSplineTableSize).map
          (fun j : ℕ => calcBezier ((j : ℚ) * kSampleStepSize) mX1 mX2)).length := by
        simpa [kSplineTableSize] using hi
      rw [List.getD_eq_getElem _ _ hlen, List.getElem_map, List.getElem_range]
      rfl
  · intro h
    unfold sampleValuesTable
    rw [if_neg]
    push_neg
    exact ⟨h.1, h.2⟩

theorem c6_sample_table_witness :
    ((0 : ℚ) ≠ 1 ∨ (1 : ℚ) ≠ 0) ∧
    (∃ l, sampleValuesTable 0 1 1 0 = some l ∧
      l.length = 11 ∧
      (∀ i : Nat, i < 11 → l.getD i 0 = calcBezier ((i : ℚ) / 10) 0 1) ∧
      (∀ i : Nat, i < 11 → l.getD i 0 = sampleValuesFn 0 1 i)) ∧
    sampleValuesTable (1/3) (1/3) (2/3) (2/3) = none :=
  ⟨Or.inl (by norm_num),
    (c6_sample_table 0 1 1 0).1 (Or.inl (by norm_num)),
    (c6_sample_table (1/3) (1/3) (2/3) (2/3)).2 ⟨rfl, rfl⟩⟩

/-- C7: the Newton-Raphson refinement runs the loop a fixed
`NEWTON_ITERATIONS = 4` times; an iteration whose slope is exactly zero
returns the current guess immediately (so the division `currentX /
currentSlope` is only ever performed under `currentSlope ≠ 0`), and otherwise
the iteration performs exactly the update `t ← t - (bezier(t) - x)/slope(t)`
with the slope recomputed at the current guess. -/
theorem c7_newton_guarded (aX mX1 mX2 aGuessT : ℚ) (n : Nat) :
    newtonRaphsonIterate aX aGuessT mX1 mX2 = newtonRaphsonGo aX mX1 mX2 4 aGuessT ∧
    (getSlope aGuessT mX1 mX2 = 0 →
      newtonRaphsonGo aX mX1 mX2 (n + 1) aGuessT = aGuessT) ∧
    (getSlope aGuessT mX1 mX2 ≠ 0 →
      newtonRaphsonGo aX mX1 mX2 (n + 1) aGuessT =
        newtonRaphsonGo aX mX1 mX2 n
          (aGuessT - (calcBezier aGuessT mX1 mX2 - aX) / getSlope aGuessT mX1 mX2)) := by
  refine ⟨rfl, ?_, ?_⟩ <;> intro h <;> rw [newtonRaphsonGo] <;> simp [h]

theorem c7_newton_guarded_witness :
    newtonRaphsonIterate (1/2) (1/5) 0 0 = newtonRaphsonGo (1/2) 0 0 4 (1/5) ∧
    getSlope 0 0 0 = 0 ∧ newtonRaphsonGo (1/2) 0 0 6 0 = 0 ∧
    getSlope 0 (1/3) (2/3) ≠ 0 ∧
    newtonRaphsonGo (1/2) (1/3) (2/3) 4 0 =
      newtonRaphsonGo (1/2) (1/3) (2/3) 3
        (0 - (calcBezier 0 (1/3) (2/3) - 1/2) / getSlope 0 (1/3) (2/3)) :=
  ⟨(c7_newton_guarded (1/2) 0 0 (1/5) 0).1,
    by norm_num [getSlope, A, B, C],
    (c7_newton_guarded (1/2) 0 0 0 5).2.1 (by norm_num [getSlope, A, B, C]),
    by norm_num [getSlope, A, B, C],
    (c7_newton_guarded (1/2) (1/3) (2/3) 0 3).2.2 (by norm_num [getSlope, A, B, C])⟩

/-- C8: both refinement loops are bounded: the Newton loop performs at most
`NEWTON_ITERATIONS = 4` update steps, the bisection loop body runs at most
`SUBDIVISION_MAX_ITERATIONS = 10` times (fuel 9 after the first mandatory
pass), and whenever the midpoint already satisfies
`|bezier(mid) - x| ≤ SUBDIVISION_PRECISION` the loop stops at once and
returns that midpoint. -/
theorem c8_loops_bounded (aX mX1 mX2 aGuessT aA aB : ℚ) :
    newtonStepCount aX mX1 mX2 NEWTON_ITERATIONS aGuessT ≤ 4 ∧
    binarySubdivideCount aX mX1 mX2 (SUBDIVISION_MAX_ITERATIONS - 1) aA aB ≤ 10 ∧
    (mabs (calcBezier (aA + (aB - aA) / 2) mX1 mX2 - aX) ≤ SUBDIVISION_PRECISION →
      binarySubdivide aX aA aB mX1 mX2 = aA + (aB - aA) / 2) := by
  refine ⟨newtonStepCount_le aX mX1 mX2 NEWTON_ITERATIONS aGuessT, ?_, ?_⟩
  · exact binarySubdivideCount_le aX mX1 mX2 (SUBDIVISION_MAX_ITERATIONS - 1) aA aB
  · intro h
    unfold binarySubdivide
    rw [show SUBDIVISION_MAX_ITERATIONS - 1 = 8 + 1 from rfl, binarySubdivideRun]
    rw [if_neg (by simpa using not_lt.mpr h)]

theorem c8_loops_bounded_witness :
    newtonStepCount (1/2) (1/3) (2/3) NEWTON_ITERATIONS (1/5) ≤ 4 ∧
    binarySubdivideCount (1/2) (1/3) (2/3) (SUBDIVISION_MAX_ITERATIONS - 1) 0 1 ≤ 10 ∧
    mabs (calcBezier (0 + (0 - 0) / 2) (1/3) (2/3) - 0) ≤ SUBDIVISION_PRECISION ∧
    binarySubdivide 0 0 0 (1/3) (2/3) = 0 + (0 - 0) / 2 :=
  ⟨(c8_loops_bounded (1/2) (1/3) (2/3) (1/5) 0 1).1,
    (c8_loops_bounded (1/2) (1/3) (2/3) (1/5) 0 1).2.1,
    by norm_num [mabs, calcBezier, A, B, C, SUBDIVISION_PRECISION],
    (c8_loops_bounded 0 (1/3) (2/3) (1/5) 0 0).2.2
      (by norm_num [mabs, calcBezier, A, B, C, SUBDIVISION_PRECISION])⟩

/-- C4 (amended): the 1e-6 forward-error bound does not hold for every valid
non-degenerate curve (see `c4_precision_counterexample`); for the curve with
linear x-polynomial `x1 = 1/3`, `x2 = 2/3` the solver is exact — for every
input `x`, mapping `getTForX`'s output forward through the x-curve reproduces
`x` exactly, hence within 1e-6. -/
theorem c4_solver_exact_linear (aX : ℚ) :
    calcBezier (getTForX (1/3) (2/3) aX) (1/3) (2/3) = aX ∧
    |calcBezier (getTForX (1/3) (2/3) aX) (1/3) (2/3) - aX| ≤ 1/1000000 := by
  have h : calcBezier (getTForX (1/3) (2/3) aX) (1/3) (2/3) = aX := by
    rw [getTForX_linear, calcBezier_linear]
  refine ⟨h, ?_⟩
  rw [h]
  simp

/-- C4 (counterexample): for the valid, non-degenerate curve
`(x1, y1, x2, y2) = (1, 0, 0, 1)` and the input `x = 4997/10000 ∈ [0,1]`, the
solver lands in the bisection branch near the interior flat point of
`x(t) = 4t³ - 6t² + 3t`, exhausts its 10 iterations, and returns
`t = 4689/10240`, whose forward image misses `x` by about `1.74e-6 > 1e-6`. -/
theorem c4_precision_counterexample :
    (0 : ℚ) ≤ 1 ∧ (1 : ℚ) ≤ 1 ∧ (0 : ℚ) ≤ 0 ∧ (0 : ℚ) ≤ 1 ∧
    ((1 : ℚ) ≠ 0 ∨ (0 : ℚ) ≠ 1) ∧
    (0 : ℚ) ≤ 4997/10000 ∧ (4997/10000 : ℚ) ≤ 1 ∧
    1/1000000 < |calcBezier (getTForX 1 0 (4997/10000)) 1 0 - 4997/10000| := by
  refine ⟨by norm_num, by norm_num, by norm_num, by norm_num, by norm_num,
    by norm_num, by norm_num, ?_⟩
  rw [getTForX_plateau_c4, lt_abs]
  left
  norm_num [calcBezier, A, B, C]

/-- C9 (counterexample): merely swapping the control points does not give the
claimed point symmetry.  For the valid pair `f = bezier(1, 0, 0, 0)` and its
swap `g = bezier(0, 0, 1, 0)` at `x = 1/2`: `f(1/2) = 1/8` and
`1 - g(1 - 1/2) = 7/8`, a mismatch of `3/4 > 1e-6`. -/
theorem c9_swap_symmetry_counterexample :
    1/1000000 < |BezierEasing 1 0 0 0 (1/2) - (1 - BezierEasing 0 0 1 0 (1 - 1/2))| := by
  have hf : BezierEasing 1 0 0 0 (1/2) = 1/8 := by
    unfold BezierEasing
    rw [if_neg (by norm_num), if_neg (by norm_num), if_neg (by norm_num),
      getTForX_plateau_half]
    norm_num [calcBezier, A, B, C]
  have hg : BezierEasing 0 0 1 0 (1 - 1/2) = 1/8 := by
    rw [show (1 : ℚ) - 1/2 = 1/2 by norm_num]
    unfold BezierEasing
    rw [if_neg (by norm_num), if_neg (by norm_num), if_neg (by norm_num),
      getTForX_ease_half]
    norm_num [calcBezier, A, B, C]
  rw [hf, hg, lt_abs]
  right
  norm_num

/-- C9 (amended): the point symmetry through `(0.5, 0.5)` relates a curve to
the curve with swapped AND mirrored control points,
`g = bezier(1-x2, 1-y2, 1-x1, 1-y1)`; then `f(x) = 1 - g(1-x)` within 1e-6 at
representative sample points, here verified (exactly) for the pairs
`(1,0,0,0) / (1,1,0,1)` at `x = 1/2` and `(1/3,0,2/3,3/4) / (1/3,1/4,2/3,1)`
at `x = 1/4` and `x = 3/4`. -/
theorem c9_mirror_symmetry_representative :
    |BezierEasing 1 0 0 0 (1/2) - (1 - BezierEasing 1 1 0 1 (1 - 1/2))| ≤ 1/1000000 ∧
    |BezierEasing (1/3) 0 (2/3) (3/4) (1/4) -
      (1 - BezierEasing (1/3) (1/4) (2/3) 1 (1 - 1/4))| ≤ 1/1000000 ∧
    |BezierEasing (1/3) 0 (2/3) (3/4) (3/4) -
      (1 - BezierEasing (1/3) (1/4) (2/3) 1 (1 - 3/4))| ≤ 1/1000000 := by
  have hf1 : BezierEasing 1 0 0 0 (1/2) = 1/8 := by
    unfold BezierEasing
    rw [if_neg (by norm_num), if_neg (by norm_num), if_neg (by norm_num),
      getTForX_plateau_half]
    norm_num [calcBezier, A, B, C]
  have hg1 : BezierEasing 1 1 0 1 (1 - 1/2) = 7/8 := by
    rw [show (1 : ℚ) - 1/2 = 1/2 by norm_num]
    unfold BezierEasing
    rw [if_neg (by norm_num), if_neg (by norm_num), if_neg (by norm_num),
      getTForX_plateau_half]
    norm_num [calcBezier, A, B, C]
  have hf2 : BezierEasing (1/3) 0 (2/3) (3/4) (1/4) = 31/256 := by
    unfold BezierEasing
    rw [if_neg (by norm_num), if_neg (by norm_num), if_neg (by norm_num),
      getTForX_linear]
    norm_num [calcBezier, A, B, C]
  have hg2 : BezierEasing (1/3) (1/4) (2/3) 1 (1 - 1/4) = 225/256 := by
    rw [show (1 : ℚ) - 1/4 = 3/4 by norm_num]
    unfold BezierEasing
    rw [if_neg (by norm_num), if_neg (by norm_num), if_neg (by norm_num),
      getTForX_linear]
    norm_num [calcBezier, A, B, C]
  have hf3 : BezierEasing (1/3) 0 (2/3) (3/4) (3/4) = 189/256 := by
    unfold BezierEasing
    rw [if_neg (by norm_num), if_neg (by norm_num), if_neg (by norm_num),
      getTForX_linear]
    norm_num [calcBezier, A, B, C]
  have hg3 : BezierEasing (1/3) (1/4) (2/3) 1 (1 - 3/4) = 67/256 := by
    rw [show (1 : ℚ) - 3/4 = 1/4 by norm_num]
    unfold BezierEasing
    rw [if_neg (by norm_num), if_neg (by norm_num), if_neg (by norm_num),
      getTForX_linear]
    norm_num [calcBezier, A, B, C]
  rw [hf1, hg1, hf2, hg2, hf3, hg3]
  norm_num

end BezierEasingJs
